import Mathlib

/-!
Shallow embedding of `repomate/cli.py`: the command-line argument parsing and
dispatch layer of the repomate tool.  Pure data flow is embedded directly;
filesystem access, the external GitHub API client, the external command
operations and the exception hierarchy of the external `exception` module are
represented by explicit records of functions and an inductive exception type.
-/

namespace Repomate

/-- Exceptions that can cross the boundaries of this layer.

Modelled from the spec: the concrete exception classes live in the external
`repomate.exception` module (not part of the provided source).  The spec's
error taxonomy lists parse errors, file errors, not-found errors, push and
clone failures, generic git failures and generic API failures; push and clone
failures are git-layer faults (so the generic git handler also catches them),
and a not-found error is a hosting-API fault (so the generic API handler also
catches it).  `assertionError` models Python's AssertionError, `other` any
exception class unknown to this layer (its Python class name is carried). -/
inductive Exc where
  | parseError (msg : String)
  | fileError (msg : String)
  | notFoundError (msg : String)
  | pushFailedError (msg : String) (url : String)
  | cloneFailedError (msg : String) (url : String)
  | gitError (msg : String)
  | apiError (msg : String)
  | assertionError
  | other (pyClass : String) (msg : String)
  deriving DecidableEq, Repr

/-- Modelled from the spec: push and clone failures are git-layer faults, so an
`except GitError` clause catches them as well. -/
def Exc.isGitError : Exc → Bool
  | .pushFailedError _ _ => true
  | .cloneFailedError _ _ => true
  | .gitError _ => true
  | _ => false

/-- Modelled from the spec: a not-found error is a hosting-API fault, so an
`except APIError` clause catches it as well. -/
def Exc.isAPIError : Exc → Bool
  | .notFoundError _ => true
  | .apiError _ => true
  | _ => false

/-- The Python class name of the exception (`exc.__class__.__name__`). -/
def Exc.className : Exc → String
  | .parseError _ => "ParseError"
  | .fileError _ => "FileError"
  | .notFoundError _ => "NotFoundError"
  | .pushFailedError _ _ => "PushFailedError"
  | .cloneFailedError _ _ => "CloneFailedError"
  | .gitError _ => "GitError"
  | .apiError _ => "APIError"
  | .assertionError => "AssertionError"
  | .other pyClass _ => pyClass

/-- Modelled from the spec: an issue is a title plus a body text
(`repomate.tuples.Issue`, external). -/
structure Issue where
  title : String
  body : String
  deriving DecidableEq, Repr

/-- Modelled from the spec: the parsed arguments bundle `repomate.tuples.Args`
(external), an immutable record whose fields not passed at construction
default to `None`. -/
structure Args where
  subparser : String
  org_name : String
  github_base_url : String
  user : Option String := none
  master_repo_urls : Option (List String) := none
  master_repo_names : Option (List String) := none
  students : Option (List String) := none
  issue : Option Issue := none
  title_regex : Option String := none
  deriving DecidableEq, Repr

/-- Modelled from the spec: the external API client handle
(`repomate.github_api.GitHubAPI`).  `urlOf` gives the URL of expected shape for
a repository name in the target organization. -/
structure GitHubAPI where
  github_base_url : String
  token : String
  org_name : String
  urlOf : String → String

/-- Modelled from the spec: the API client exposes
`get_repo_urls(names) -> urls`, one URL of the expected shape per name; it
never checks that the remote repositories exist. -/
def GitHubAPI.get_repo_urls (api : GitHubAPI) (repo_names : List String) : List String :=
  repo_names.map api.urlOf

/-- Result of `pathlib.Path.stat()` as far as this layer reads it, together
with the `is_file` answer for the path. -/
structure FileStat where
  isFile : Bool
  stSize : Nat
  deriving DecidableEq, Repr

/-- The filesystem as seen by `_extract_students`: path resolution (`none`
models the `FileNotFoundError` that `Path.resolve` can raise and that the
source swallows), stat/is_file answers, and file contents. -/
structure FileSystem where
  resolve : String → Option String
  stat : String → FileStat
  readText : String → String

/-- Python truthiness of an optional list attribute (`'x' in args and args.x`):
true exactly for a present, non-empty list. -/
def truthyList : Option (List String) → Bool
  | some (_ :: _) => true
  | _ => false

/-- Python truthiness of an optional string attribute: true exactly for a
present, non-empty string. -/
def truthyStr : Option String → Bool
  | some s => s ≠ ""
  | none => false

/-- `os.linesep` on the POSIX platform the tool runs on. -/
def linesep : Char := '\n'

/-- `str.split(sep)` on character lists: split at every occurrence of the
separator, keeping empty pieces (so `"a\n\nb"` gives three pieces and a
trailing separator yields a trailing empty piece). -/
def pySplitChars (sep : Char) : List Char → List Char → List (List Char)
  | [], acc => [acc.reverse]
  | c :: rest, acc =>
    if c = sep then acc.reverse :: pySplitChars sep rest []
    else pySplitChars sep rest (c :: acc)

/-- Python `str.split(sep)` for a one-character separator. -/
def pySplit (text : String) (sep : Char) : List String :=
  (pySplitChars sep text.data []).map (fun cs => String.mk cs)

/-- Python `str.strip()`: remove leading and trailing whitespace. -/
def pyStrip (s : String) : String :=
  String.mk (((s.data.dropWhile Char.isWhitespace).reverse.dropWhile
    Char.isWhitespace).reverse)

/-- The list comprehension in `_extract_students`:
`[student.strip() for student in text.split(os.linesep) if student]` —
the truthiness filter runs on the raw line, the strip on the survivors. -/
def parseStudentsFileContent (text : String) : List String :=
  ((pySplit text linesep).filter (fun student => student ≠ "")).map pyStrip

/-- The resolved students-file path: `Path.resolve()` with a
`FileNotFoundError` swallowed (the unresolved path is then used). -/
def resolvedPath (fs : FileSystem) (raw : String) : String :=
  (fs.resolve raw).getD raw

/-- Embedding of `_extract_students`: inline student list if present and
truthy, otherwise the students file (checked to be an existing, non-empty
regular file before its text is read), otherwise `none`. -/
def extractStudents (fs : FileSystem) (students : Option (List String))
    (students_file : Option String) : Except Exc (Option (List String)) :=
  if truthyList students then
    Except.ok students
  else if truthyStr students_file then
    let path := resolvedPath fs (students_file.getD "")
    if !(fs.stat path).isFile then
      Except.error (Exc.fileError ("'" ++ path ++ "' is not a file"))
    else if (fs.stat path).stSize = 0 then
      Except.error (Exc.fileError ("'" ++ path ++ "' is empty"))
    else
      Except.ok (some (parseStudentsFileContent (fs.readText path)))
  else
    Except.ok none

/-- Embedding of `_connect_to_api`: the underlying handle construction
(external, passed as `constructApi`) is tried; a `NotFoundError` is replaced
by one whose message names the organization and the base url, any other error
propagates, success returns the handle. -/
def connectToApi (constructApi : String → String → String → Except Exc GitHubAPI)
    (github_base_url : String) (token : String) (org_name : String) :
    Except Exc GitHubAPI :=
  match constructApi github_base_url token org_name with
  | Except.error (Exc.notFoundError _) =>
    Except.error (Exc.notFoundError
      ("either organization " ++ org_name ++
        " could not be found, or the base url '" ++ github_base_url ++
        "' is incorrect"))
  | Except.error e => Except.error e
  | Except.ok api => Except.ok api

/-- The operating-system facilities `_repo_names_to_urls` uses:
`os.path.abspath`, `repomate.util.is_git_repo` (modelled from the spec: true
when a git repository exists at the given absolute path),
`pathlib.Path.as_uri`, and `repomate.util.repo_name` (modelled from the spec:
extracts the repository name from a URL). -/
structure OsEnv where
  abspath : String → String
  isGitRepoAt : String → Bool
  asUri : String → String
  repoName : String → String

/-- Embedding of `_repo_names_to_urls`: partition the names into local git
repositories and the rest, fetch URLs for the rest from the API, build file
URIs for the local ones, and return remote URLs followed by local URIs. -/
def repoNamesToUrls (os : OsEnv) (api : GitHubAPI) (repo_names : List String) :
    List String :=
  let localNames := repo_names.filter (fun name => os.isGitRepoAt (os.abspath name))
  let nonLocal := repo_names.filter (fun name => !(localNames.contains name))
  let nonLocalUrls := api.get_repo_urls nonLocal
  let localUris := localNames.map (fun repo_name => os.asUri (os.abspath repo_name))
  nonLocalUrls ++ localUris

/-- Observable side effects of `parse_args` on its collaborators, in the order
they are performed: the clone plugin hook, the `_connect_to_api` call, the
`_repo_names_to_urls` call, and the `_extract_students` call. -/
inductive Effect where
  | cloneParseHook
  | connectApi
  | resolveRepoUrls
  | extractStudentsCall
  deriving DecidableEq, Repr

/-- The `argparse.Namespace` produced by the schema for one invocation, with
Python attribute absence and `None` collapsed into `none` (the source only
ever reads these attributes through `'x' in args and args.x` style guards or
after the schema guarantees their presence). -/
structure PyNamespace where
  subparser : String
  org_name : String
  github_base_url : String
  user : Option String := none
  master_repo_urls : Option (List String) := none
  master_repo_names : Option (List String) := none
  students : Option (List String) := none
  students_file : Option String := none
  issue : Option String := none
  title_regex : Option String := none

/-- External collaborators of `parse_args`: the `github_api.GitHubAPI`
constructor (which may fail), the OS facilities, the filesystem,
`git.OAUTH_TOKEN`, and `util.read_issue` (modelled from the spec: reads an
issue file into a title plus body). -/
structure ParseEnv where
  constructApi : String → String → String → Except Exc GitHubAPI
  os : OsEnv
  fs : FileSystem
  oauthToken : String
  readIssue : String → Issue

/-- The master-repository block of `parse_args` (lines guarded by the
`add-to-teams` special case): returns the `master_repo_urls` and
`master_repo_names` fields of the bundle plus the effects performed.  The
`assert master_urls and master_names` of the source is the
`Exc.assertionError` branch.  A `none` value for `master_repo_names` in the
names branch models the `TypeError`/`AttributeError` Python would raise when
iterating it. -/
def resolveMasterRepos (os : OsEnv) (api : GitHubAPI) (args : PyNamespace) :
    Except Exc (Option (List String) × Option (List String) × List Effect) :=
  if args.subparser = "add-to-teams" then
    Except.ok (none, none, [])
  else
    match
      (if truthyList args.master_repo_urls then
        Except.ok (args.master_repo_urls.getD [],
          (args.master_repo_urls.getD []).map os.repoName, ([] : List Effect))
      else
        match args.master_repo_names with
        | none => Except.error (Exc.other "TypeError" "master_repo_names is not iterable")
        | some master_names =>
          Except.ok (repoNamesToUrls os api master_names, master_names,
            [Effect.resolveRepoUrls])) with
    | Except.error e => Except.error e
    | Except.ok (master_urls, master_names, effs) =>
      if master_urls = [] ∨ master_names = [] then
        Except.error Exc.assertionError
      else
        Except.ok (some master_urls, some master_names, effs)

/-- Embedding of `parse_args`: the `verify-settings` short circuit returns a
bundle holding only the subcommand, organization, base url and username, no
API handle and no effects; every other subcommand runs the clone hook (clone
only), connects to the API, resolves the master repositories, extracts the
students and reads the issue file, producing the full bundle, the API handle
and the effect trace. -/
def parse_args (env : ParseEnv) (args : PyNamespace) :
    Except Exc (Args × Option GitHubAPI × List Effect) :=
  if args.subparser = "verify-settings" then
    Except.ok
      ({ subparser := "verify-settings", org_name := args.org_name,
         github_base_url := args.github_base_url, user := args.user },
       none, [])
  else
    match connectToApi env.constructApi args.github_base_url env.oauthToken args.org_name with
    | Except.error e => Except.error e
    | Except.ok api =>
      match resolveMasterRepos env.os api args with
      | Except.error e => Except.error e
      | Except.ok (master_urls, master_names, resolveEffs) =>
        match extractStudents env.fs args.students args.students_file with
        | Except.error e => Except.error e
        | Except.ok students =>
          Except.ok
            ({ subparser := args.subparser, org_name := args.org_name,
               github_base_url := args.github_base_url, user := args.user,
               master_repo_urls := master_urls, master_repo_names := master_names,
               students := students,
               issue :=
                 if truthyStr args.issue then some (env.readIssue (args.issue.getD ""))
                 else none,
               title_regex := args.title_regex },
             some api,
             (if args.subparser = "clone" then [Effect.cloneParseHook] else []) ++
               [Effect.connectApi] ++ resolveEffs ++ [Effect.extractStudentsCall])

/-- What `_create_base_parsers` passes to `add_argument` for one flag: the
`required` keyword and the `default` keyword. -/
structure FlagSpec where
  required : Bool
  default : Option String
  deriving DecidableEq, Repr

/-- The `default` lambda of `_create_base_parsers`:
`configured_defaults[arg_name] if arg_name in configured_defaults else None`.
The configured defaults mapping is a key-value list (first binding wins, as in
a Python dict there are no duplicate keys). -/
def configDefault (configured_defaults : List (String × String)) (arg_name : String) :
    Option String :=
  match configured_defaults.find? (fun p => p.1 = arg_name) with
  | some p => some p.2
  | none => none

/-- The `is_required` lambda of `_create_base_parsers`:
`True if arg_name not in configured_defaults else False`. -/
def configIsRequired (configured_defaults : List (String × String)) (arg_name : String) :
    Bool :=
  if (configured_defaults.find? (fun p => p.1 = arg_name)).isSome then false else true

/-- The flag specifications produced by `_create_base_parsers` for the four
configurable flags.  For `students_file` the `required` field is the one put
on the mutually exclusive student-source group, and the `default` the one put
on the `--students-file` flag, exactly as in the source. -/
structure BaseParsers where
  org_name : FlagSpec
  github_base_url : FlagSpec
  students_file : FlagSpec
  user : FlagSpec
  deriving DecidableEq, Repr

/-- Embedding of `_create_base_parsers`: each of the four configurable flags is
declared with `required=is_required(name)` and `default=default(name)`. -/
def create_base_parsers (configured_defaults : List (String × String)) : BaseParsers :=
  { org_name :=
      { required := configIsRequired configured_defaults "org_name",
        default := configDefault configured_defaults "org_name" },
    github_base_url :=
      { required := configIsRequired configured_defaults "github_base_url",
        default := configDefault configured_defaults "github_base_url" },
    students_file :=
      { required := configIsRequired configured_defaults "students_file",
        default := configDefault configured_defaults "students_file" },
    user :=
      { required := configIsRequired configured_defaults "user",
        default := configDefault configured_defaults "user" } }

/-- Look up the flag specification a `BaseParsers` value assigns to one of the
four recognized flag names. -/
def BaseParsers.flagOf (bp : BaseParsers) (arg_name : String) : FlagSpec :=
  if arg_name = "org_name" then bp.org_name
  else if arg_name = "github_base_url" then bp.github_base_url
  else if arg_name = "students_file" then bp.students_file
  else bp.user

/-- How control leaves the dispatcher: normal return, `sys.exit(code)`, or a
propagating exception. -/
inductive Outcome where
  | normal
  | exited (code : Nat)
  | raised (e : Exc)
  deriving DecidableEq, Repr

/-- The observable result of one `dispatch_command` call: the outcome, the
error lines logged, and the command operations invoked (in order). -/
structure DispatchResult where
  outcome : Outcome
  logs : List String
  invoked : List String
  deriving DecidableEq, Repr

/-- Embedding of the `_sys_exit_on_expected_error` context manager applied to a
body with the given result: push failures, clone failures, other git errors
and API errors are each logged with one error line and turned into
`sys.exit(1)` (the `except` clauses are tried in source order); any other
exception propagates.  The "beacuse" typo is the source's. -/
def sysExitOnExpectedError : Except Exc Unit → Outcome × List String
  | Except.ok _ => (Outcome.normal, [])
  | Except.error (Exc.pushFailedError _ url) =>
    (Outcome.exited 1,
     ["There was an error pushing to " ++ url ++
       ". Verify that your token has adequate access."])
  | Except.error (Exc.cloneFailedError _ url) =>
    (Outcome.exited 1,
     ["There was an error cloning from " ++ url ++ ". Does the repo really exist?"])
  | Except.error e =>
    if e.isGitError then
      (Outcome.exited 1, ["Something went wrong with git. See the logs for info."])
    else if e.isAPIError then
      (Outcome.exited 1, ["Exiting beacuse of " ++ e.className])
    else
      (Outcome.raised e, [])

/-- A command operation run inside `with _sys_exit_on_expected_error():`. -/
def runWrapped (op_name : String) (result : Except Exc Unit) : DispatchResult :=
  { outcome := (sysExitOnExpectedError result).1,
    logs := (sysExitOnExpectedError result).2,
    invoked := [op_name] }

/-- Modelled from the spec: the external command operations of the
`repomate.command` module plus `APIWrapper.verify_settings`, one per
subcommand, each a function of the arguments the dispatcher passes it that
either returns or raises. -/
structure CommandModule where
  add_students_to_teams : Option (List String) → GitHubAPI → Except Exc Unit
  setup_student_repos :
    Option (List String) → Option (List String) → Option String → GitHubAPI →
      Except Exc Unit
  update_student_repos :
    Option (List String) → Option (List String) → Option String → GitHubAPI →
      Option Issue → Except Exc Unit
  open_issue :
    Option Issue → Option (List String) → Option (List String) → GitHubAPI →
      Except Exc Unit
  close_issue :
    Option String → Option (List String) → Option (List String) → GitHubAPI →
      Except Exc Unit
  migrate_repos : Option (List String) → Option String → GitHubAPI → Except Exc Unit
  clone_repos :
    Option (List String) → Option (List String) → GitHubAPI → Except Exc Unit
  verify_settings : Option String → String → String → String → Except Exc Unit

/-- Embedding of `dispatch_command`: each recognized subcommand invokes its
command operation — all but `verify-settings` inside
`_sys_exit_on_expected_error` — and an unrecognized subcommand raises a
`ParseError`. -/
def dispatch_command (cmd : CommandModule) (oauth_token : String) (args : Args)
    (api : GitHubAPI) : DispatchResult :=
  if args.subparser = "add-to-teams" then
    runWrapped "add_students_to_teams" (cmd.add_students_to_teams args.students api)
  else if args.subparser = "setup" then
    runWrapped "setup_student_repos"
      (cmd.setup_student_repos args.master_repo_urls args.students args.user api)
  else if args.subparser = "update" then
    runWrapped "update_student_repos"
      (cmd.update_student_repos args.master_repo_urls args.students args.user api
        args.issue)
  else if args.subparser = "open-issue" then
    runWrapped "open_issue"
      (cmd.open_issue args.issue args.master_repo_names args.students api)
  else if args.subparser = "close-issue" then
    runWrapped "close_issue"
      (cmd.close_issue args.title_regex args.master_repo_names args.students api)
  else if args.subparser = "migrate" then
    runWrapped "migrate_repos" (cmd.migrate_repos args.master_repo_urls args.user api)
  else if args.subparser = "clone" then
    runWrapped "clone_repos" (cmd.clone_repos args.master_repo_names args.students api)
  else if args.subparser = "verify-settings" then
    match cmd.verify_settings args.user args.org_name args.github_base_url oauth_token with
    | Except.ok _ => { outcome := Outcome.normal, logs := [], invoked := ["verify_settings"] }
    | Except.error e =>
      { outcome := Outcome.raised e, logs := [], invoked := ["verify_settings"] }
  else
    { outcome := Outcome.raised (Exc.parseError
        ("Illegal value for subparser: " ++ args.subparser ++
          ". This is a bug, please open an issue.")),
      logs := [], invoked := [] }

/-- The result of the single command operation `dispatch_command` selects for
the given arguments (mirrors the dispatcher's wiring of arguments to
operations; `Except.ok ()` for an unrecognized subcommand, which invokes no
operation). -/
def commandOperationResult (cmd : CommandModule) (oauth_token : String) (args : Args)
    (api : GitHubAPI) : Except Exc Unit :=
  if args.subparser = "add-to-teams" then
    cmd.add_students_to_teams args.students api
  else if args.subparser = "setup" then
    cmd.setup_student_repos args.master_repo_urls args.students args.user api
  else if args.subparser = "update" then
    cmd.update_student_repos args.master_repo_urls args.students args.user api args.issue
  else if args.subparser = "open-issue" then
    cmd.open_issue args.issue args.master_repo_names args.students api
  else if args.subparser = "close-issue" then
    cmd.close_issue args.title_regex args.master_repo_names args.students api
  else if args.subparser = "migrate" then
    cmd.migrate_repos args.master_repo_urls args.user api
  else if args.subparser = "clone" then
    cmd.clone_repos args.master_repo_names args.students api
  else if args.subparser = "verify-settings" then
    cmd.verify_settings args.user args.org_name args.github_base_url oauth_token
  else
    Except.ok ()

/-- The eight subcommand values the dispatcher recognizes. -/
def recognizedSubcommands : List String :=
  ["setup", "update", "migrate", "clone", "add-to-teams", "open-issue",
   "close-issue", "verify-settings"]

/-- The subcommands whose operation runs inside `_sys_exit_on_expected_error`
(all recognized ones except `verify-settings`). -/
def wrappedSubcommands : List String :=
  ["setup", "update", "migrate", "clone", "add-to-teams", "open-issue", "close-issue"]

instance {ε α : Type} [DecidableEq ε] [DecidableEq α] : DecidableEq (Except ε α) := fun x y =>
  match x, y with
  | Except.ok a, Except.ok b => decidable_of_iff (a = b) (by simp)
  | Except.error a, Except.error b => decidable_of_iff (a = b) (by simp)
  | Except.ok _, Except.error _ => isFalse (fun hc => Except.noConfusion hc)
  | Except.error _, Except.ok _ => isFalse (fun hc => Except.noConfusion hc)

/-! Concrete collaborators used to evaluate the embedding on sample inputs. -/

/-- A working directory in which `local-repo` is the only local git
repository. -/
def sampleOs : OsEnv :=
  { abspath := fun name => "/cwd/" ++ name,
    isGitRepoAt := fun path => path == "/cwd/local-repo",
    asUri := fun path => "file://" ++ path,
    repoName := fun url => url }

/-- A connected API handle for organization `org`. -/
def sampleApi : GitHubAPI :=
  { github_base_url := "https://host/api/v3", token := "token", org_name := "org",
    urlOf := fun name => "https://host/org/" ++ name }

/-- A filesystem on which every path is an existing, non-empty regular file
with contents `"alice\n\nbob \n"`. -/
def aliceFs : FileSystem :=
  { resolve := fun path => some ("/abs/" ++ path),
    stat := fun _ => { isFile := true, stSize := 12 },
    readText := fun _ => "alice\n\nbob \n" }

/-- A filesystem on which every path is an existing, non-empty regular file
whose contents hold a whitespace-only line. -/
def wsFs : FileSystem :=
  { resolve := fun path => some ("/abs/" ++ path),
    stat := fun _ => { isFile := true, stSize := 7 },
    readText := fun _ => "a\n \nb" }

/-- A filesystem on which no path resolves or is a file. -/
def missingFs : FileSystem :=
  { resolve := fun _ => none,
    stat := fun _ => { isFile := false, stSize := 0 },
    readText := fun _ => "" }

/-- Like `missingFs` but with different file contents (used to observe that
the extractor never reads contents on the error paths). -/
def missingFsOtherContent : FileSystem :=
  { resolve := fun _ => none,
    stat := fun _ => { isFile := false, stSize := 0 },
    readText := fun _ => "surprise" }

/-- A parse environment whose API construction always succeeds. -/
def sampleParseEnv : ParseEnv :=
  { constructApi := fun _ _ _ => Except.ok sampleApi,
    os := sampleOs,
    fs := aliceFs,
    oauthToken := "token",
    readIssue := fun _ => { title := "title", body := "body" } }

/-- A command module whose every operation returns normally. -/
def cmdAllOk : CommandModule :=
  { add_students_to_teams := fun _ _ => Except.ok (),
    setup_student_repos := fun _ _ _ _ => Except.ok (),
    update_student_repos := fun _ _ _ _ _ => Except.ok (),
    open_issue := fun _ _ _ _ => Except.ok (),
    close_issue := fun _ _ _ _ => Except.ok (),
    migrate_repos := fun _ _ _ => Except.ok (),
    clone_repos := fun _ _ _ => Except.ok (),
    verify_settings := fun _ _ _ _ => Except.ok () }

/-- A command module whose setup operation raises the given exception. -/
def cmdSetupRaises (e : Exc) : CommandModule :=
  { cmdAllOk with setup_student_repos := fun _ _ _ _ => Except.error e }

/-- A command module whose settings verification raises the given exception. -/
def cmdVerifyRaises (e : Exc) : CommandModule :=
  { cmdAllOk with verify_settings := fun _ _ _ _ => Except.error e }

/-- A parsed bundle for the `setup` subcommand. -/
def setupArgs : Args :=
  { subparser := "setup", org_name := "org", github_base_url := "https://host/api/v3",
    user := some "user", master_repo_urls := some ["https://host/org/repo"],
    master_repo_names := some ["repo"], students := some ["alice"] }

/-- A parsed bundle with an unrecognized subcommand value. -/
def bogusArgs : Args :=
  { subparser := "bogus", org_name := "org", github_base_url := "https://host/api/v3" }

/-- A parsed bundle for the `verify-settings` subcommand. -/
def verifySettingsArgs : Args :=
  { subparser := "verify-settings", org_name := "org",
    github_base_url := "https://host/api/v3", user := some "user" }

/-- A namespace for the `verify-settings` subcommand. -/
def verifyNs : PyNamespace :=
  { subparser := "verify-settings", org_name := "org",
    github_base_url := "https://host/api/v3", user := some "user" }

/-- A namespace for the `setup` subcommand with inline students and master
repository names. -/
def setupNs : PyNamespace :=
  { subparser := "setup", org_name := "org", github_base_url := "https://host/api/v3",
    user := some "user", master_repo_names := some ["remote-repo"],
    students := some ["alice"] }

/-! Helper lemmas. -/

/-- Filtering a list by non-membership in its own filtered sublist is
filtering by the negated predicate. -/
theorem filter_not_contains_filter (p : String → Bool) (l : List String) :
    l.filter (fun n => !((l.filter p).contains n)) = l.filter (fun n => !(p n)) := by
  apply List.filter_congr
  intro x hx
  cases hp : p x with
  | true =>
    have hmem : x ∈ l.filter p := List.mem_filter.2 ⟨hx, hp⟩
    simp [hmem]
  | false =>
    have hmem : x ∉ l.filter p := by
      intro hc
      have := (List.mem_filter.1 hc).2
      rw [hp] at this
      exact Bool.noConfusion this
    simp [hmem]

/-- An exception caught by `_sys_exit_on_expected_error` produces exit status 1
and exactly one logged error line. -/
theorem sysExit_caught (e : Exc) (h : (e.isGitError || e.isAPIError) = true) :
    ∃ m, sysExitOnExpectedError (Except.error e) = (Outcome.exited 1, [m]) := by
  cases e <;> simp [Exc.isGitError, Exc.isAPIError] at h <;>
    simp [sysExitOnExpectedError, Exc.isGitError, Exc.isAPIError]

/-- An exception not caught by `_sys_exit_on_expected_error` propagates with
nothing logged. -/
theorem sysExit_uncaught (e : Exc) (h : (e.isGitError || e.isAPIError) = false) :
    sysExitOnExpectedError (Except.error e) = (Outcome.raised e, []) := by
  cases e <;> simp [Exc.isGitError, Exc.isAPIError] at h <;>
    simp [sysExitOnExpectedError, Exc.isGitError, Exc.isAPIError]

/-- For every wrapped subcommand, the dispatcher's outcome and logs are those
of `_sys_exit_on_expected_error` applied to the selected command operation's
result. -/
theorem dispatch_wrapped (cmd : CommandModule) (tok : String) (args : Args)
    (api : GitHubAPI) (hw : args.subparser ∈ wrappedSubcommands) :
    (dispatch_command cmd tok args api).outcome =
      (sysExitOnExpectedError (commandOperationResult cmd tok args api)).1 ∧
    (dispatch_command cmd tok args api).logs =
      (sysExitOnExpectedError (commandOperationResult cmd tok args api)).2 := by
  simp [wrappedSubcommands] at hw
  rcases hw with h | h | h | h | h | h | h <;>
    simp [dispatch_command, commandOperationResult, runWrapped, h]

/-! Claim theorems. -/

/-- The C2 claim's description of the students-file processing, read as the
spec sequences it: split the text on the platform line separator, trim each
element, and drop the blank ones. -/
def claimedStudentsFileContent (text : String) : List String :=
  ((pySplit text linesep).map pyStrip).filter (fun line => line ≠ "")

/-- C2 counterexample: on a file whose contents are `"a\n \nb"` the extractor
keeps the whitespace-only line as an empty string, so its output is not the
claim's trimmed, blank-free list of lines. -/
theorem C2_counterexample :
    extractStudents wsFs none (some "students.txt") = Except.ok (some ["a", "", "b"]) ∧
    extractStudents wsFs none (some "students.txt") ≠
      Except.ok (some (claimedStudentsFileContent (wsFs.readText
        (resolvedPath wsFs "students.txt")))) := by
  constructor <;> decide

/-- C2 (amended): when the students-file branch is taken and the file is an
existing, non-empty regular file, the extractor returns the file's text split
on the platform line separator with the empty elements dropped and each
surviving element whitespace-trimmed, in order (so a whitespace-only line
survives as an empty string). -/
theorem C2_extract_splits_drops_empty_then_trims (fs : FileSystem)
    (students : Option (List String)) (sfile : String)
    (h1 : truthyList students = false) (h2 : sfile ≠ "")
    (h3 : (fs.stat (resolvedPath fs sfile)).isFile = true)
    (h4 : (fs.stat (resolvedPath fs sfile)).stSize ≠ 0) :
    extractStudents fs students (some sfile) =
      Except.ok (some (((pySplit (fs.readText (resolvedPath fs sfile)) linesep).filter
        (fun line => line ≠ "")).map pyStrip)) := by
  simp [extractStudents, truthyStr, h1, h2, h3, h4, parseStudentsFileContent]

/-- C2 witness: the claim's own concrete example, evaluated through the
amended theorem. -/
theorem C2_witness :
    extractStudents aliceFs none (some "students.txt") =
      Except.ok (some ["alice", "bob"]) := by
  have h := C2_extract_splits_drops_empty_then_trims aliceFs none "students.txt"
    (by decide) (by decide) (by decide) (by decide)
  exact h.trans (by decide)

/-- C3: in the students-file branch, the extractor fails with a file error
whenever the resolved path is not a regular file or the file has size zero —
and on those paths its result does not depend on file contents (`readText`) —
while for an existing file of non-zero size no error is raised. -/
theorem C3_file_error_guards (fs fs2 : FileSystem) (students : Option (List String))
    (sfile : String) (h1 : truthyList students = false) (h2 : sfile ≠ "")
    (hres : fs2.resolve = fs.resolve) (hstat : fs2.stat = fs.stat) :
    (((fs.stat (resolvedPath fs sfile)).isFile = false ∨
        (fs.stat (resolvedPath fs sfile)).stSize = 0) →
      ∃ m, extractStudents fs students (some sfile) = Except.error (Exc.fileError m) ∧
        extractStudents fs2 students (some sfile) = Except.error (Exc.fileError m)) ∧
    ((fs.stat (resolvedPath fs sfile)).isFile = true →
      (fs.stat (resolvedPath fs sfile)).stSize ≠ 0 →
      ∃ l, extractStudents fs students (some sfile) = Except.ok (some l)) := by
  have hpath : resolvedPath fs2 sfile = resolvedPath fs sfile := by
    simp [resolvedPath, hres]
  constructor
  · intro herr
    rcases herr with hnf | hzero
    · refine ⟨"'" ++ resolvedPath fs sfile ++ "' is not a file", ?_, ?_⟩ <;>
        simp [extractStudents, truthyStr, h1, h2, hpath, hstat, hnf]
    · cases hf : (fs.stat (resolvedPath fs sfile)).isFile
      · refine ⟨"'" ++ resolvedPath fs sfile ++ "' is not a file", ?_, ?_⟩ <;>
          simp [extractStudents, truthyStr, h1, h2, hpath, hstat, hf]
      · refine ⟨"'" ++ resolvedPath fs sfile ++ "' is empty", ?_, ?_⟩ <;>
          simp [extractStudents, truthyStr, h1, h2, hpath, hstat, hf, hzero]
  · intro hf hsz
    refine ⟨parseStudentsFileContent (fs.readText (resolvedPath fs sfile)), ?_⟩
    simp [extractStudents, truthyStr, h1, h2, hf, hsz]

/-- C3 witness: a missing file fails with a file error independently of
contents; an existing non-empty file succeeds. -/
theorem C3_witness :
    (∃ m, extractStudents missingFs none (some "no-such-file") =
        Except.error (Exc.fileError m) ∧
      extractStudents missingFsOtherContent none (some "no-such-file") =
        Except.error (Exc.fileError m)) ∧
    (∃ l, extractStudents aliceFs none (some "students.txt") = Except.ok (some l)) := by
  constructor
  · exact (C3_file_error_guards missingFs missingFsOtherContent none "no-such-file"
      (by decide) (by decide) rfl rfl).1 (Or.inl (by decide))
  · exact (C3_file_error_guards aliceFs aliceFs none "students.txt"
      (by decide) (by decide) rfl rfl).2 (by decide) (by decide)

/-- C4: the repo-name-to-URL resolver returns the API urls of the names that
are not local git repositories followed by the file uris of those that are;
in particular for `["local-repo", "remote-repo"]` with only `local-repo`
local, one API url for `remote-repo` precedes one file uri for `local-repo`. -/
theorem C4_repo_urls_partition :
    (∀ (os : OsEnv) (api : GitHubAPI) (names : List String),
      repoNamesToUrls os api names =
        (names.filter (fun n => !(os.isGitRepoAt (os.abspath n)))).map api.urlOf ++
        (names.filter (fun n => os.isGitRepoAt (os.abspath n))).map
          (fun n => os.asUri (os.abspath n))) ∧
    repoNamesToUrls sampleOs sampleApi ["local-repo", "remote-repo"] =
      [sampleApi.urlOf "remote-repo", sampleOs.asUri (sampleOs.abspath "local-repo")] := by
  constructor
  · intro os api names
    simp only [repoNamesToUrls, GitHubAPI.get_repo_urls]
    rw [filter_not_contains_filter (fun n => os.isGitRepoAt (os.abspath n)) names]
  · decide

/-- C7: for each of the four recognized flag names, schema construction marks
the flag required exactly when the configured defaults hold no value for that
name, and pre-fills the flag with the configured default exactly when one
exists. -/
theorem C7_required_iff_no_default (configured_defaults : List (String × String))
    (arg_name : String)
    (h : arg_name ∈ ["org_name", "github_base_url", "user", "students_file"]) :
    (((create_base_parsers configured_defaults).flagOf arg_name).required = true ↔
      configDefault configured_defaults arg_name = none) ∧
    ((create_base_parsers configured_defaults).flagOf arg_name).default =
      configDefault configured_defaults arg_name := by
  have key : ∀ name : String,
      (configIsRequired configured_defaults name = true ↔
        configDefault configured_defaults name = none) := by
    intro name
    cases hf : configured_defaults.find? (fun p => p.1 = name) <;>
      simp [configIsRequired, configDefault, hf]
  simp only [List.mem_cons, List.mem_singleton, List.not_mem_nil, or_false] at h
  rcases h with h | h | h | h <;>
    subst h <;>
    exact ⟨key _, by simp [create_base_parsers, BaseParsers.flagOf]⟩

/-- C7 witness: with `org_name` configured and `user` not, the `org_name` flag
is optional and pre-filled while the `user` flag is required and unfilled. -/
theorem C7_witness :
    ((((create_base_parsers [("org_name", "cfg-org")]).flagOf "org_name").required = true ↔
        configDefault [("org_name", "cfg-org")] "org_name" = none) ∧
      ((create_base_parsers [("org_name", "cfg-org")]).flagOf "org_name").default =
        configDefault [("org_name", "cfg-org")] "org_name") ∧
    ((((create_base_parsers [("org_name", "cfg-org")]).flagOf "user").required = true ↔
        configDefault [("org_name", "cfg-org")] "user" = none) ∧
      ((create_base_parsers [("org_name", "cfg-org")]).flagOf "user").default =
        configDefault [("org_name", "cfg-org")] "user") := by
  exact ⟨C7_required_iff_no_default [("org_name", "cfg-org")] "org_name" (by decide),
    C7_required_iff_no_default [("org_name", "cfg-org")] "user" (by decide)⟩

/-- C8: the API connector replaces a not-found failure of the underlying
construction by a not-found error whose message names the organization and the
base url (for every original message, so the original is not surfaced), lets
any other failure propagate unchanged, and returns the handle on success. -/
theorem C8_connect_enriches_not_found
    (constructApi : String → String → String → Except Exc GitHubAPI)
    (github_base_url token org_name : String) :
    (∀ m, constructApi github_base_url token org_name =
        Except.error (Exc.notFoundError m) →
      connectToApi constructApi github_base_url token org_name =
        Except.error (Exc.notFoundError
          ("either organization " ++ org_name ++
            " could not be found, or the base url '" ++ github_base_url ++
            "' is incorrect"))) ∧
    (∀ e, constructApi github_base_url token org_name = Except.error e →
      (∀ m, e ≠ Exc.notFoundError m) →
      connectToApi constructApi github_base_url token org_name = Except.error e) ∧
    (∀ api, constructApi github_base_url token org_name = Except.ok api →
      connectToApi constructApi github_base_url token org_name = Except.ok api) := by
  refine ⟨?_, ?_, ?_⟩
  · intro m h
    simp [connectToApi, h]
  · intro e h hne
    cases e <;> simp [connectToApi, h]
    exact absurd rfl (hne _)
  · intro api h
    simp [connectToApi, h]

/-- C8 witness: the three branches evaluated on concrete constructions. -/
theorem C8_witness :
    connectToApi (fun _ _ _ => Except.error (Exc.notFoundError "original"))
        "https://host/api/v3" "token" "org" =
      Except.error (Exc.notFoundError
        ("either organization org could not be found, or the base url " ++
          "'https://host/api/v3' is incorrect")) ∧
    connectToApi (fun _ _ _ => Except.error (Exc.gitError "g"))
        "https://host/api/v3" "token" "org" =
      Except.error (Exc.gitError "g") ∧
    connectToApi (fun _ _ _ => Except.ok sampleApi)
        "https://host/api/v3" "token" "org" = Except.ok sampleApi := by
  refine ⟨?_, ?_, ?_⟩
  · exact ((C8_connect_enriches_not_found _ "https://host/api/v3" "token" "org").1
      "original" rfl).trans (by rfl)
  · exact (C8_connect_enriches_not_found _ "https://host/api/v3" "token" "org").2.1
      (Exc.gitError "g") rfl (fun m hc => Exc.noConfusion hc)
  · exact (C8_connect_enriches_not_found _ "https://host/api/v3" "token" "org").2.2
      sampleApi rfl

/-- C5: for a parsed `verify-settings` invocation, `parse_args` short-circuits:
the bundle holds only the subcommand, organization, base url and username, the
API handle is `none`, and no connector call, student extraction or
repository-url resolution is performed (the effect trace is empty). -/
theorem C5_verify_settings_short_circuits (env : ParseEnv) (args : PyNamespace)
    (h : args.subparser = "verify-settings") :
    parse_args env args =
      Except.ok
        ({ subparser := "verify-settings", org_name := args.org_name,
           github_base_url := args.github_base_url, user := args.user,
           master_repo_urls := none, master_repo_names := none, students := none,
           issue := none, title_regex := none }, none, []) := by
  unfold parse_args
  rw [if_pos h]

/-- C5 witness: a concrete `verify-settings` namespace. -/
theorem C5_witness :
    parse_args sampleParseEnv verifyNs =
      Except.ok
        ({ subparser := "verify-settings", org_name := "org",
           github_base_url := "https://host/api/v3", user := some "user",
           master_repo_urls := none, master_repo_names := none, students := none,
           issue := none, title_regex := none }, none, []) :=
  C5_verify_settings_short_circuits sampleParseEnv verifyNs rfl

/-- The master-repository block guarantees of `parse_args`: on success the two
fields are `none` for `add-to-teams` and non-empty lists otherwise (the
source's `assert master_urls and master_names`). -/
theorem resolveMasterRepos_ok (os : OsEnv) (api : GitHubAPI) (args : PyNamespace)
    (u n : Option (List String)) (effs : List Effect)
    (h : resolveMasterRepos os api args = Except.ok (u, n, effs)) :
    (args.subparser = "add-to-teams" → u = none ∧ n = none) ∧
    (args.subparser ≠ "add-to-teams" →
      ∃ mu mn, u = some mu ∧ n = some mn ∧ mu ≠ [] ∧ mn ≠ []) := by
  by_cases hadd : args.subparser = "add-to-teams"
  · unfold resolveMasterRepos at h
    rw [if_pos hadd] at h
    simp only [Except.ok.injEq, Prod.mk.injEq] at h
    exact ⟨fun _ => ⟨h.1.symm, h.2.1.symm⟩, fun hc => absurd hadd hc⟩
  · unfold resolveMasterRepos at h
    rw [if_neg hadd] at h
    refine ⟨fun hc => absurd hc hadd, fun _ => ?_⟩
    split at h
    · exact absurd h (by simp)
    · split at h
      · exact absurd h (by simp)
      · next hemp =>
        push_neg at hemp
        simp only [Except.ok.injEq, Prod.mk.injEq] at h
        exact ⟨_, _, h.1.symm, h.2.1.symm, hemp.1, hemp.2⟩

/-- C6: in every bundle `parse_args` returns, the master-repository urls and
names fields are resolved together — both some non-empty list for every
subcommand that requires repositories, and both absent for `add-to-teams` and
`verify-settings`, which do not. -/
theorem C6_master_urls_and_names_together (env : ParseEnv) (args : PyNamespace)
    (a : Args) (apiOpt : Option GitHubAPI) (effs : List Effect)
    (h : parse_args env args = Except.ok (a, apiOpt, effs)) :
    ((a.subparser = "add-to-teams" ∨ a.subparser = "verify-settings") →
      a.master_repo_urls = none ∧ a.master_repo_names = none) ∧
    (a.subparser ≠ "add-to-teams" → a.subparser ≠ "verify-settings" →
      ∃ mu mn, a.master_repo_urls = some mu ∧ a.master_repo_names = some mn ∧
        mu ≠ [] ∧ mn ≠ []) := by
  by_cases hver : args.subparser = "verify-settings"
  · unfold parse_args at h
    rw [if_pos hver] at h
    simp only [Except.ok.injEq, Prod.mk.injEq] at h
    obtain ⟨ha, -⟩ := h
    subst ha
    exact ⟨fun _ => ⟨rfl, rfl⟩, fun _ hc => absurd rfl hc⟩
  · unfold parse_args at h
    rw [if_neg hver] at h
    split at h
    · exact absurd h (by simp)
    · next api heqc =>
      split at h
      · exact absurd h (by simp)
      · next mu mn reff heqr =>
        split at h
        · exact absurd h (by simp)
        · next students heqe =>
          simp only [Except.ok.injEq, Prod.mk.injEq] at h
          obtain ⟨ha, -⟩ := h
          subst ha
          have hres := resolveMasterRepos_ok _ api args mu mn reff heqr
          constructor
          · intro hor
            rcases hor with hadd | hv
            · exact hres.1 hadd
            · exact absurd hv hver
          · intro hadd _
            exact hres.2 hadd

/-- C6 witness: a concrete successful `setup` parse. -/
theorem C6_witness :
    ∃ mu mn,
      (Args.mk "setup" "org" "https://host/api/v3" (some "user")
        (some ["https://host/org/remote-repo"]) (some ["remote-repo"])
        (some ["alice"]) none none).master_repo_urls = some mu ∧
      (Args.mk "setup" "org" "https://host/api/v3" (some "user")
        (some ["https://host/org/remote-repo"]) (some ["remote-repo"])
        (some ["alice"]) none none).master_repo_names = some mn ∧
      mu ≠ [] ∧ mn ≠ [] := by
  have h := C6_master_urls_and_names_together sampleParseEnv setupNs
    (Args.mk "setup" "org" "https://host/api/v3" (some "user")
      (some ["https://host/org/remote-repo"]) (some ["remote-repo"])
      (some ["alice"]) none none)
    (some sampleApi)
    [Effect.connectApi, Effect.resolveRepoUrls, Effect.extractStudentsCall]
    rfl
  exact h.2 (by decide) (by decide)

/-- C9: a bundle whose subcommand is not one of the eight recognized values
makes the dispatcher raise a parse error naming the value — never an
exit-status-1 termination — with no command operation invoked; every
recognized subcommand invokes exactly one command operation. -/
theorem C9_unrecognized_subcommand_is_fatal :
    (∀ (cmd : CommandModule) (tok : String) (args : Args) (api : GitHubAPI),
      args.subparser ∉ recognizedSubcommands →
      dispatch_command cmd tok args api =
        { outcome := Outcome.raised (Exc.parseError
            ("Illegal value for subparser: " ++ args.subparser ++
              ". This is a bug, please open an issue.")),
          logs := [], invoked := [] }) ∧
    (∀ (cmd : CommandModule) (tok : String) (args : Args) (api : GitHubAPI),
      args.subparser ∈ recognizedSubcommands →
      (dispatch_command cmd tok args api).invoked.length = 1) := by
  constructor
  · intro cmd tok args api h
    simp only [recognizedSubcommands, List.mem_cons, List.not_mem_nil, or_false] at h
    push_neg at h
    obtain ⟨h1, h2, h3, h4, h5, h6, h7, h8⟩ := h
    simp [dispatch_command, h1, h2, h3, h4, h5, h6, h7, h8]
  · intro cmd tok args api h
    simp only [recognizedSubcommands, List.mem_cons, List.not_mem_nil, or_false] at h
    rcases h with h | h | h | h | h | h | h | h
    · simp [dispatch_command, runWrapped, h]
    · simp [dispatch_command, runWrapped, h]
    · simp [dispatch_command, runWrapped, h]
    · simp [dispatch_command, runWrapped, h]
    · simp [dispatch_command, runWrapped, h]
    · simp [dispatch_command, runWrapped, h]
    · simp [dispatch_command, runWrapped, h]
    · rw [dispatch_command]
      cases hv : cmd.verify_settings args.user args.org_name args.github_base_url tok <;>
        simp [h, hv]

/-- C9 witness: the concrete subparser value `bogus` is rejected as a parse
error without exiting, and the concrete `setup` subcommand invokes one
operation. -/
theorem C9_witness :
    dispatch_command cmdAllOk "token" bogusArgs sampleApi =
      { outcome := Outcome.raised (Exc.parseError
          ("Illegal value for subparser: bogus. This is a bug, please open an issue.")),
        logs := [], invoked := [] } ∧
    (dispatch_command cmdAllOk "token" setupArgs sampleApi).invoked.length = 1 := by
  constructor
  · exact (C9_unrecognized_subcommand_is_fatal.1 cmdAllOk "token" bogusArgs sampleApi
      (by decide)).trans (by rfl)
  · exact C9_unrecognized_subcommand_is_fatal.2 cmdAllOk "token" setupArgs sampleApi
      (by decide)

/-- C10: the `verify-settings` dispatch is not wrapped in the
expected-error-to-exit translation: every exception its verification routine
raises — the generic API kind included — propagates out of the dispatcher
with nothing logged, instead of becoming an exit-status-1 termination. -/
theorem C10_verify_settings_not_wrapped (cmd : CommandModule) (tok : String)
    (args : Args) (api : GitHubAPI) (e : Exc)
    (h : args.subparser = "verify-settings")
    (hv : cmd.verify_settings args.user args.org_name args.github_base_url tok =
      Except.error e) :
    dispatch_command cmd tok args api =
      { outcome := Outcome.raised e, logs := [], invoked := ["verify_settings"] } := by
  rw [dispatch_command]
  simp [h, hv]

/-- C10 witness: an API error raised by settings verification propagates. -/
theorem C10_witness :
    dispatch_command (cmdVerifyRaises (Exc.apiError "bad scopes")) "token"
        verifySettingsArgs sampleApi =
      { outcome := Outcome.raised (Exc.apiError "bad scopes"), logs := [],
        invoked := ["verify_settings"] } :=
  C10_verify_settings_not_wrapped (cmdVerifyRaises (Exc.apiError "bad scopes"))
    "token" verifySettingsArgs sampleApi (Exc.apiError "bad scopes") rfl rfl

/-- C1 counterexample: a file error — one of the claim's enumerated kinds —
raised by the `setup` command operation is not caught at the dispatch
boundary: the dispatcher re-raises it with nothing logged instead of
converting it to exit status 1. -/
theorem C1_counterexample :
    dispatch_command (cmdSetupRaises (Exc.fileError "boom")) "token" setupArgs
        sampleApi =
      { outcome := Outcome.raised (Exc.fileError "boom"), logs := [],
        invoked := ["setup_student_repos"] } ∧
    (dispatch_command (cmdSetupRaises (Exc.fileError "boom")) "token" setupArgs
        sampleApi).outcome ≠ Outcome.exited 1 := by
  constructor <;> decide

/-- C1 (amended): for every wrapped subcommand, an exception of the git-layer
or API-layer kinds (push failure, clone failure, generic git failure, generic
API failure — the not-found kind included) raised by the command operation is
caught at the dispatch boundary, logged as a single error line and converted
to exit status 1, while an exception of any other kind (parse errors and file
errors included) propagates out of the dispatcher unchanged with nothing
logged. -/
theorem C1_expected_errors_exit_1 (cmd : CommandModule) (tok : String)
    (args : Args) (api : GitHubAPI) (e : Exc)
    (hw : args.subparser ∈ wrappedSubcommands)
    (hop : commandOperationResult cmd tok args api = Except.error e) :
    ((e.isGitError || e.isAPIError) = true →
      (dispatch_command cmd tok args api).outcome = Outcome.exited 1 ∧
      (dispatch_command cmd tok args api).logs.length = 1) ∧
    ((e.isGitError || e.isAPIError) = false →
      (dispatch_command cmd tok args api).outcome = Outcome.raised e ∧
      (dispatch_command cmd tok args api).logs = []) := by
  obtain ⟨ho, hl⟩ := dispatch_wrapped cmd tok args api hw
  rw [hop] at ho hl
  constructor
  · intro hc
    obtain ⟨m, hm⟩ := sysExit_caught e hc
    rw [hm] at ho hl
    exact ⟨ho, by rw [hl]; rfl⟩
  · intro hc
    rw [sysExit_uncaught e hc] at ho hl
    exact ⟨ho, hl⟩

/-- C1 witness: a push failure raised by the setup operation exits with status
1 after one logged line. -/
theorem C1_witness :
    (dispatch_command (cmdSetupRaises (Exc.pushFailedError "denied" "https://u"))
        "token" setupArgs sampleApi).outcome = Outcome.exited 1 ∧
    (dispatch_command (cmdSetupRaises (Exc.pushFailedError "denied" "https://u"))
        "token" setupArgs sampleApi).logs.length = 1 :=
  (C1_expected_errors_exit_1 (cmdSetupRaises (Exc.pushFailedError "denied" "https://u"))
      "token" setupArgs sampleApi (Exc.pushFailedError "denied" "https://u")
      (by decide) rfl).1 (by decide)

end Repomate
